import Mathlib

/-!
Shallow embedding of the Kubernetes inventory collector
(src/collector.py and src/run_inventory.py) and proofs about it.

The control plane and the remote-exec channel are modelled as an explicit
environment (`ClusterEnv`) whose operations return `Except PyError _`:
an `apiException` models `kubernetes.client.rest.ApiException`, the only
exception class the collector's `except ApiException` clauses catch;
`attributeError` models Python's `AttributeError` raised by attribute
access on `None`; `runtimeError` models `RuntimeError`.

Kubernetes API objects are modelled with exactly the optionality the
Python client exposes: `metadata` fields are always present, while the
`spec` and `status` sub-objects (and their nested fields) may be `None`,
modelled as `Option`.  Flat records produced by the collector are ordered
association lists from field name to `Value`, mirroring Python dicts with
insertion order.
-/

namespace KubeInventory

/-- Python exception values relevant to the collector. -/
inductive PyError where
  | apiException (msg : String)
  | runtimeError (msg : String)
  | attributeError (msg : String)
deriving DecidableEq

/-- A value stored in a flat record: a string, Python `None`, or a list of
strings (the process-line list). -/
inductive Value where
  | str (s : String)
  | vnone
  | vlist (xs : List String)
deriving DecidableEq

/-- A flat record: an insertion-ordered mapping from field name to value,
mirroring the Python dicts built by the collector. -/
abbrev Record := List (String × Value)

/-- `x if x is not None else None` rendering of an optional string field. -/
def optVal : Option String → Value
  | some s => .str s
  | none => .vnone

/-- `node.status.node_info` fields used by `collect_nodes`. -/
structure NodeInfo where
  kubelet_version : String
  os_image : String
  container_runtime_version : String
deriving DecidableEq

/-- `node.status`: the nested `node_info` sub-object may be absent. -/
structure NodeStatus where
  node_info : Option NodeInfo
deriving DecidableEq

/-- `node.metadata`: always present on API objects; only
`creation_timestamp` may be `None`.  The timestamp is modelled as its
ISO-8601 rendering. -/
structure NodeMetadata where
  name : String
  uid : String
  creation_timestamp : Option String
deriving DecidableEq

/-- A node object returned by `list_node`; the whole `status` sub-object
may be absent (`None`). -/
structure Node where
  metadata : NodeMetadata
  status : Option NodeStatus
deriving DecidableEq

/-- One container declaration in a pod spec. -/
structure Container where
  name : String
  image : String
deriving DecidableEq

/-- `pod.spec` fields used by the collector. -/
structure PodSpec where
  node_name : Option String
  service_account_name : Option String
  containers : List Container
deriving DecidableEq

/-- `pod.status` fields used by the collector. -/
structure PodStatus where
  phase : Option String
  pod_ip : Option String
deriving DecidableEq

/-- `pod.metadata`; `nspace` models `metadata.namespace` (a Lean keyword). -/
structure PodMetadata where
  name : String
  nspace : String
  uid : String
deriving DecidableEq

/-- A pod object; the `spec` and `status` sub-objects may be absent. -/
structure Pod where
  metadata : PodMetadata
  spec : Option PodSpec
  status : Option PodStatus
deriving DecidableEq

/-- The control plane and exec channel seen by one run: `list_node`,
`list_pod_for_all_namespaces`, `read_namespaced_pod`, and the pod-exec
stream (arguments: pod name, namespace, container name; result: the
combined stdout/stderr text). -/
structure ClusterEnv where
  list_node : Except PyError (List Node)
  list_pod_for_all_namespaces : Except PyError (List Pod)
  read_namespaced_pod : String → String → Except PyError Pod
  pod_exec : String → String → String → Except PyError String

/-- The Python expression `node.status.node_info`: attribute access on the
`status` attribute raises `AttributeError` when `status` is `None`. -/
def node_status_node_info (n : Node) : Except PyError (Option NodeInfo) :=
  match n.status with
  | none => .error (.attributeError "NoneType object has no attribute node_info")
  | some st => .ok st.node_info

/-- The dict appended per node by `collect_nodes` (collector.py lines 49-56). -/
def nodeRecord (n : Node) (info : Option NodeInfo) : Record :=
  [("name", .str n.metadata.name),
   ("uid", .str n.metadata.uid),
   ("creation_timestamp", optVal n.metadata.creation_timestamp),
   ("kubernetes_version", match info with | some i => .str i.kubelet_version | none => .vnone),
   ("os_image", match info with | some i => .str i.os_image | none => .vnone),
   ("container_runtime", match info with | some i => .str i.container_runtime_version | none => .vnone)]

/-- Body of the `try` block of `collect_nodes`. -/
def collect_nodes_body (env : ClusterEnv) : Except PyError (List Record) := do
  let nodes ← env.list_node
  nodes.mapM (fun n => (node_status_node_info n).map (nodeRecord n))

/-- `collect_nodes` (collector.py lines 43-59): the `except ApiException`
clause rewraps an `ApiException` as `RuntimeError`; any other exception
propagates. -/
def collect_nodes (env : ClusterEnv) : Except PyError (List Record) :=
  match collect_nodes_body env with
  | .error (.apiException m) => .error (.runtimeError ("Failed to list nodes: " ++ m))
  | r => r

/-- The dict appended per pod by `collect_pods` (collector.py lines 67-75);
every nested access is guarded by `if pod.spec` / `if pod.status`. -/
def podRecord (p : Pod) : Record :=
  [("name", .str p.metadata.name),
   ("namespace", .str p.metadata.nspace),
   ("uid", .str p.metadata.uid),
   ("node_name", match p.spec with | some sp => optVal sp.node_name | none => .vnone),
   ("service_account", match p.spec with | some sp => optVal sp.service_account_name | none => .vnone),
   ("status", match p.status with | some st => optVal st.phase | none => .vnone),
   ("pod_ip", match p.status with | some st => optVal st.pod_ip | none => .vnone)]

/-- `collect_pods` (collector.py lines 61-78). -/
def collect_pods (env : ClusterEnv) : Except PyError (List Record) :=
  match env.list_pod_for_all_namespaces with
  | .ok pods => .ok (pods.map podRecord)
  | .error (.apiException m) => .error (.runtimeError ("Failed to list pods: " ++ m))
  | .error e => .error e

/-- The dict appended per container by `collect_containers`
(collector.py lines 90-96); `pod.spec` is re-tested for `node_name`
exactly as in the source. -/
def containerRecord (p : Pod) (c : Container) : Record :=
  [("name", .str c.name),
   ("image", .str c.image),
   ("pod_name", .str p.metadata.name),
   ("namespace", .str p.metadata.nspace),
   ("node_name", match p.spec with | some sp => optVal sp.node_name | none => .vnone)]

/-- The records one pod contributes in the `collect_containers` loop:
`if not pod.spec or not pod.spec.containers: continue`. -/
def podContainerRecords (p : Pod) : List Record :=
  match p.spec with
  | none => []
  | some sp => if sp.containers.isEmpty then [] else sp.containers.map (containerRecord p)

/-- `collect_containers` (collector.py lines 80-99). -/
def collect_containers (env : ClusterEnv) : Except PyError (List Record) :=
  match env.list_pod_for_all_namespaces with
  | .ok pods => .ok (pods.foldl (fun acc p => acc ++ podContainerRecords p) [])
  | .error (.apiException m) => .error (.runtimeError ("Failed to list containers: " ++ m))
  | .error e => .error e

/-- Splitting a character list at every occurrence of a separator
character, keeping empty segments, as Python `str.split(sep)` does. -/
def splitOnChar (sep : Char) : List Char → List (List Char)
  | [] => [[]]
  | x :: xs =>
    match splitOnChar sep xs with
    | [] => [[x]]
    | h :: t => if x = sep then [] :: h :: t else (x :: h) :: t

/-- Python `resp.split("\n")` for a single-character separator. -/
def split_newlines (s : String) : List String :=
  (splitOnChar (Char.ofNat 10) s.data).map String.mk

/-- Dropping leading whitespace characters. -/
def dropLeadingWs : List Char → List Char
  | [] => []
  | c :: cs => if c.isWhitespace then dropLeadingWs cs else c :: cs

/-- Python `line.strip()`: remove leading and trailing whitespace. -/
def py_strip (s : String) : String :=
  ⟨dropLeadingWs (dropLeadingWs s.data.reverse).reverse⟩

/-- Parsing of the captured exec output (collector.py line 142):
`[line.strip() for line in resp.split("\n") if line.strip()]` — split on
newlines, strip each line, drop the lines that are empty after
stripping. -/
def parse_ps_output (resp : String) : List String :=
  (split_newlines resp).filterMap (fun line =>
    if (py_strip line).data.isEmpty then none else some (py_strip line))

/-- Body of the `try` block of `collect_processes` (collector.py lines
113-143): read the pod, return `[]` for a missing/empty container spec,
default the container name to the first declared container (Python
truthiness: an empty string is also replaced), return `[]` unless the
phase is `"Running"` (attribute access `pod.status.phase` raises when
`status` is `None`), then exec `ps aux` and parse. -/
def collect_processes_body (env : ClusterEnv) (pod_name nspace : String)
    (container_name : Option String) : Except PyError (List String) := do
  let pod ← env.read_namespaced_pod pod_name nspace
  match pod.spec with
  | none => pure []
  | some sp =>
    match sp.containers with
    | [] => pure []
    | c0 :: _ =>
      let cname := match container_name with
        | none => c0.name
        | some c => if c.isEmpty then c0.name else c
      match pod.status with
      | none => .error (.attributeError "NoneType object has no attribute phase")
      | some st =>
        if st.phase = some "Running" then do
          let resp ← env.pod_exec pod_name nspace cname
          pure (parse_ps_output resp)
        else pure []

/-- `collect_processes` (collector.py lines 101-149): `except ApiException`
and `except Exception` both return `[]`, so every failure of the body
collapses to the empty list. -/
def collect_processes (env : ClusterEnv) (pod_name nspace : String)
    (container_name : Option String) : List String :=
  match collect_processes_body env pod_name nspace container_name with
  | .ok l => l
  | .error _ => []

/-- The dict appended per (pod, container) by `collect_all_processes`
(collector.py lines 171-176). -/
def processRecord (p : Pod) (c : Container) (procs : List String) : Record :=
  [("pod_name", .str p.metadata.name),
   ("namespace", .str p.metadata.nspace),
   ("container_name", .str c.name),
   ("processes", .vlist procs)]

/-- One iteration of the pod loop of `collect_all_processes` (collector.py
lines 157-176): `pod.status.phase` is accessed unguarded (raising when
`status` is `None`), non-running pods and pods without containers are
skipped, and one record per declared container is appended. -/
def all_processes_step (env : ClusterEnv) (acc : List Record) (p : Pod) :
    Except PyError (List Record) :=
  match p.status with
  | none => .error (.attributeError "NoneType object has no attribute phase")
  | some st =>
    if st.phase = some "Running" then
      match p.spec with
      | none => pure acc
      | some sp =>
        if sp.containers.isEmpty then pure acc
        else pure (acc ++ sp.containers.map (fun c =>
          processRecord p c (collect_processes env p.metadata.name p.metadata.nspace (some c.name))))
    else pure acc

/-- Body of the `try` block of `collect_all_processes`. -/
def collect_all_processes_body (env : ClusterEnv) : Except PyError (List Record) := do
  let pods ← env.list_pod_for_all_namespaces
  pods.foldlM (all_processes_step env) []

/-- `collect_all_processes` (collector.py lines 151-180). -/
def collect_all_processes (env : ClusterEnv) : Except PyError (List Record) :=
  match collect_all_processes_body env with
  | .error (.apiException m) => .error (.runtimeError ("Failed to collect processes: " ++ m))
  | r => r

/-- How one cell is written by `export_csv` (collector.py lines 199-205):
a field absent from the dict (`item.get` returns `None`) and an explicit
`None` value are both written as the empty field by `csv.DictWriter`;
a list value is joined with a newline; a string is written as is. -/
def render_cell : Option Value → String
  | none => ""
  | some .vnone => ""
  | some (.str s) => s
  | some (.vlist xs) => String.intercalate "\n" xs

/-- The row written for one record: one cell per header field, in header
order, each looked up with `item.get(field)`. -/
def csvRow (fields : List String) (item : Record) : List String :=
  fields.map (fun f => render_cell (item.lookup f))

/-- The full table written for one record set: header = the field names of
the first record (`items[0].keys()`), then one row per record. -/
def csvTable (items : List Record) : List (List String) :=
  match items with
  | [] => []
  | first :: _ => (first.map Prod.fst) :: items.map (csvRow (first.map Prod.fst))

/-- `os.path.join(output_dir, key + ".csv")`. -/
def csv_path (output_dir key : String) : String :=
  output_dir ++ "/" ++ key ++ ".csv"

/-- The observable file-system effect of `export_csv`: the
`os.makedirs(output_dir, exist_ok=True)` call and the list of written
files with their contents. -/
structure ExportResult where
  makedirs_dir : String
  makedirs_exist_ok : Bool
  files : List (String × List (List String))
deriving DecidableEq

/-- `export_csv` (collector.py lines 182-207): creates the output
directory with `exist_ok=True`, skips categories with no records
(`if not items: continue`), and writes one CSV table per remaining
category. -/
def export_csv (data : List (String × List Record)) (output_dir : String) : ExportResult :=
  { makedirs_dir := output_dir
    makedirs_exist_ok := true
    files := data.filterMap (fun kv =>
      if kv.2.isEmpty then none else some (csv_path output_dir kv.1, csvTable kv.2)) }

/-- Python exception classes relevant to the top-level handler in
run_inventory.py. -/
inductive PyClass where
  | baseExceptionCls
  | exceptionCls
  | osErrorCls
  | builtinConnectionErrorCls
  | collectorConnectionErrorCls
  | runtimeErrorCls
  | apiExceptionCls
deriving DecidableEq, BEq

/-- The inclusive ancestor chain of each class: the Python builtin
`ConnectionError` subclasses `OSError`; the custom
`collector.ConnectionError` is declared as `class ConnectionError(Exception)`
(collector.py line 14) and so subclasses `Exception` directly;
`RuntimeError` and `ApiException` also subclass `Exception`. -/
def ancestors : PyClass → List PyClass
  | .baseExceptionCls => [.baseExceptionCls]
  | .exceptionCls => [.exceptionCls, .baseExceptionCls]
  | .osErrorCls => [.osErrorCls, .exceptionCls, .baseExceptionCls]
  | .builtinConnectionErrorCls =>
      [.builtinConnectionErrorCls, .osErrorCls, .exceptionCls, .baseExceptionCls]
  | .collectorConnectionErrorCls =>
      [.collectorConnectionErrorCls, .exceptionCls, .baseExceptionCls]
  | .runtimeErrorCls => [.runtimeErrorCls, .exceptionCls, .baseExceptionCls]
  | .apiExceptionCls => [.apiExceptionCls, .exceptionCls, .baseExceptionCls]

/-- Python `isinstance`-style matching used by an `except` clause. -/
def matches_handler (raised handlerCls : PyClass) : Bool :=
  (ancestors raised).contains handlerCls

/-- The class the bare name `ConnectionError` denotes inside
run_inventory.py: the module imports only `KubernetesInventoryCollector`
from `collector` (run_inventory.py line 11) and never defines or imports a
`ConnectionError` of its own, so the name resolves to the Python builtin
`ConnectionError` (a subclass of `OSError`). -/
def run_inventory_connection_error_class : PyClass := .builtinConnectionErrorCls

/-- The exception class raised by `KubernetesInventoryCollector._connect`
when no credential source works: the module-level custom
`collector.ConnectionError` (collector.py lines 14-16 and 38-41). -/
def collector_connect_failure_class : PyClass := .collectorConnectionErrorCls

/-- The diagnostic branch taken by `main` and the exit code passed to
`sys.exit`. -/
inductive MainOutcome where
  | credential_guidance (exit_code : Nat)
  | generic_error (exit_code : Nat)
deriving DecidableEq

/-- The `except` ladder of `main` (run_inventory.py lines 65-73): the
first clause catches what the name `ConnectionError` resolves to and
prints the credential guidance; the second clause catches any `Exception`
and prints the generic diagnostic; both exit with status 1.  `none` means
the exception is not caught. -/
def main_handle_exception (raised : PyClass) : Option MainOutcome :=
  if matches_handler raised run_inventory_connection_error_class then
    some (.credential_guidance 1)
  else if matches_handler raised .exceptionCls then
    some (.generic_error 1)
  else none

/-- A node whose `status` sub-object is absent. -/
def node_missing_status : Node :=
  { metadata := { name := "node-1", uid := "uid-n1", creation_timestamp := none },
    status := none }

/-- A pod whose `spec` and `status` sub-objects are absent. -/
def pod_missing_status : Pod :=
  { metadata := { name := "pod-1", nspace := "default", uid := "uid-p1" },
    spec := none, status := none }

/-- An environment whose listings return exactly one node and one pod,
each missing its optional `status` sub-object. -/
def env_missing_status : ClusterEnv :=
  { list_node := .ok [node_missing_status]
    list_pod_for_all_namespaces := .ok [pod_missing_status]
    read_namespaced_pod := fun _ _ => .error (.apiException "unused")
    pod_exec := fun _ _ _ => .error (.apiException "unused") }

/-- C1: the claim says that for every node/pod/container object that omits
an optional nested sub-object — in particular an absent `status`
sub-object — the normalization in `collect_nodes`, `collect_pods`,
`collect_containers` and `collect_all_processes` substitutes an explicit
"no value" marker and never propagates a failure.  The code violates this:
`collect_nodes` evaluates `node.status.node_info` without guarding
`node.status`, so a node with an absent `status` raises `AttributeError`,
which the `except ApiException` clause does not catch; likewise
`collect_all_processes` evaluates `pod.status.phase` unguarded.  Only
`collect_pods` (third conjunct) actually substitutes the "no value"
marker for an absent `status`/`spec`. -/
theorem collect_nodes_missing_status_raises :
    collect_nodes env_missing_status
      = .error (.attributeError "NoneType object has no attribute node_info")
    ∧ collect_all_processes env_missing_status
      = .error (.attributeError "NoneType object has no attribute phase")
    ∧ collect_pods env_missing_status
      = .ok [[("name", .str "pod-1"), ("namespace", .str "default"),
              ("uid", .str "uid-p1"), ("node_name", .vnone),
              ("service_account", .vnone), ("status", .vnone), ("pod_ip", .vnone)]] :=
  ⟨rfl, rfl, rfl⟩

/-- C7: the claim says a `ConnectionError` raised by the collector takes
the connection-failure (credential-guidance) diagnostic branch of `main`.
The code violates this: the bare name `ConnectionError` in
run_inventory.py resolves to the Python builtin (an `OSError` subclass),
while `collector.ConnectionError` subclasses `Exception` directly and is
never imported there, so the collector's error falls through to the
generic `except Exception` branch (first conjunct); the credential
guidance is reachable only for the builtin class (second conjunct).  The
exit status is 1 in both branches. -/
theorem main_handler_misses_collector_connection_error :
    main_handle_exception collector_connect_failure_class
      = some (.generic_error 1)
    ∧ main_handle_exception .builtinConnectionErrorCls
      = some (.credential_guidance 1) :=
  ⟨rfl, rfl⟩

/-- Reduction of `Except` bind on a success value. -/
theorem except_bind_ok {ε : Type u} {α β : Type u} (a : α) (f : α → Except ε β) :
    (Except.ok a : Except ε α) >>= f = f a := rfl

/-- Reduction of `Except` bind on an error value. -/
theorem except_bind_error {ε : Type u} {α β : Type u} (e : ε) (f : α → Except ε β) :
    (Except.error e : Except ε α) >>= f = .error e := rfl

/-- C2: any failure of the body of `collect_processes` — reading the pod,
opening the exec stream, or the unguarded `pod.status.phase` attribute
access — is swallowed by its `except` clauses and collapses to the empty
list; the function itself is total with result type `List String`, so no
error ever propagates to the caller. -/
theorem collect_processes_failure_returns_empty
    (env : ClusterEnv) (pod_name nspace : String) (container_name : Option String)
    (e : PyError)
    (h : collect_processes_body env pod_name nspace container_name = .error e) :
    collect_processes env pod_name nspace container_name = [] := by
  unfold collect_processes
  rw [h]

/-- Environment whose pod read always fails with an API error. -/
def env_broken_read : ClusterEnv :=
  { list_node := .ok []
    list_pod_for_all_namespaces := .ok []
    read_namespaced_pod := fun _ _ => .error (.apiException "pods is forbidden")
    pod_exec := fun _ _ _ => .ok "should never be consulted" }

theorem collect_processes_failure_returns_empty_witness :
    collect_processes_body env_broken_read "payments" "prod" none
      = .error (.apiException "pods is forbidden")
    ∧ collect_processes env_broken_read "payments" "prod" none = [] :=
  ⟨rfl, collect_processes_failure_returns_empty env_broken_read "payments" "prod" none
    (.apiException "pods is forbidden") rfl⟩

/-- C6: whenever a bulk listing fails with an `ApiException`, each of
`collect_nodes`, `collect_pods`, `collect_containers` and
`collect_all_processes` fails with the collection error the spec calls
`CollectionError` — realized in the code as a `RuntimeError` wrapping the
underlying control-plane error message — and returns no partial results
(the whole call is a single `Except.error`). -/
theorem collection_failures_wrap_api_error (env : ClusterEnv) (m : String) :
    (env.list_node = .error (.apiException m) →
      collect_nodes env = .error (.runtimeError ("Failed to list nodes: " ++ m)))
    ∧ (env.list_pod_for_all_namespaces = .error (.apiException m) →
      collect_pods env = .error (.runtimeError ("Failed to list pods: " ++ m)))
    ∧ (env.list_pod_for_all_namespaces = .error (.apiException m) →
      collect_containers env = .error (.runtimeError ("Failed to list containers: " ++ m)))
    ∧ (env.list_pod_for_all_namespaces = .error (.apiException m) →
      collect_all_processes env = .error (.runtimeError ("Failed to collect processes: " ++ m))) := by
  refine ⟨fun h => ?_, fun h => ?_, fun h => ?_, fun h => ?_⟩
  · unfold collect_nodes collect_nodes_body
    rw [h]; rfl
  · unfold collect_pods
    rw [h]
  · unfold collect_containers
    rw [h]
  · unfold collect_all_processes collect_all_processes_body
    rw [h]; rfl

/-- Environment whose every listing fails with an API error. -/
def env_api_down : ClusterEnv :=
  { list_node := .error (.apiException "503 service unavailable")
    list_pod_for_all_namespaces := .error (.apiException "503 service unavailable")
    read_namespaced_pod := fun _ _ => .error (.apiException "503 service unavailable")
    pod_exec := fun _ _ _ => .error (.apiException "503 service unavailable") }

theorem collection_failures_wrap_api_error_witness :
    collect_nodes env_api_down
      = .error (.runtimeError "Failed to list nodes: 503 service unavailable")
    ∧ collect_pods env_api_down
      = .error (.runtimeError "Failed to list pods: 503 service unavailable")
    ∧ collect_containers env_api_down
      = .error (.runtimeError "Failed to list containers: 503 service unavailable")
    ∧ collect_all_processes env_api_down
      = .error (.runtimeError "Failed to collect processes: 503 service unavailable") :=
  ⟨(collection_failures_wrap_api_error env_api_down "503 service unavailable").1 rfl,
   (collection_failures_wrap_api_error env_api_down "503 service unavailable").2.1 rfl,
   (collection_failures_wrap_api_error env_api_down "503 service unavailable").2.2.1 rfl,
   (collection_failures_wrap_api_error env_api_down "503 service unavailable").2.2.2 rfl⟩

/-- C8: for a pod whose current phase is not `"Running"` (and whose
`status` is present, so the phase test itself succeeds),
`collect_processes` returns the empty list, and does so for every
behaviour of the exec channel — the exec call is never attempted. -/
theorem collect_processes_not_running_empty
    (env : ClusterEnv) (pod_name nspace : String) (container_name : Option String)
    (pod : Pod) (st : PodStatus)
    (hread : env.read_namespaced_pod pod_name nspace = .ok pod)
    (hst : pod.status = some st)
    (hphase : st.phase ≠ some "Running") :
    ∀ execf, collect_processes { env with pod_exec := execf } pod_name nspace container_name = [] := by
  intro execf
  have hread2 : ({ env with pod_exec := execf } : ClusterEnv).read_namespaced_pod pod_name nspace
      = .ok pod := hread
  unfold collect_processes collect_processes_body
  rw [hread2, except_bind_ok]
  obtain ⟨pmeta, pspec, pstatus⟩ := pod
  simp only [show (Pod.status ⟨pmeta, pspec, pstatus⟩) = pstatus from rfl] at hst
  subst hst
  rcases pspec with _ | ⟨nn, sa, cs⟩
  · rfl
  · rcases cs with _ | ⟨c0, rest⟩
    · rfl
    · simp only [hphase, ite_false, if_neg]
      rfl

/-- A pod that has already completed: phase `"Succeeded"`. -/
def pod_succeeded : Pod :=
  { metadata := { name := "job-pod", nspace := "batch", uid := "uid-j1" },
    spec := some { node_name := some "node-1", service_account_name := some "default",
                   containers := [{ name := "worker", image := "worker:1" }] },
    status := some { phase := some "Succeeded", pod_ip := some "10.0.0.9" } }

/-- Environment that reads back `pod_succeeded` and whose exec channel
would succeed with non-empty output if it were ever consulted. -/
def env_succeeded_pod : ClusterEnv :=
  { list_node := .ok []
    list_pod_for_all_namespaces := .ok [pod_succeeded]
    read_namespaced_pod := fun _ _ => .ok pod_succeeded
    pod_exec := fun _ _ _ => .ok "PID USER COMMAND\n1 root sleep" }

theorem collect_processes_not_running_empty_witness :
    pod_succeeded.status = some { phase := some "Succeeded", pod_ip := some "10.0.0.9" }
    ∧ collect_processes env_succeeded_pod "job-pod" "batch" none = [] :=
  ⟨rfl,
   collect_processes_not_running_empty env_succeeded_pod "job-pod" "batch" none
     pod_succeeded { phase := some "Succeeded", pod_ip := some "10.0.0.9" }
     rfl rfl (by decide) env_succeeded_pod.pod_exec⟩

/-- Folding list-append over a list is flattening. -/
theorem foldl_append_flatMap {α β : Type} (f : α → List β) :
    ∀ (l : List α) (acc : List β),
      l.foldl (fun a x => a ++ f x) acc = acc ++ l.flatMap f := by
  intro l
  induction l with
  | nil => intro acc; simp
  | cons x t ih => intro acc; simp [ih, List.append_assoc]

/-- The container records one pod contributes, stated as §4.2 of the spec
describes `collectContainers`: one record per declared container, carrying
the container name and image and the owning pod's name, namespace and node
name; a pod with no spec (or no containers) contributes nothing. -/
def pod_container_records_spec (p : Pod) : List Record :=
  match p.spec with
  | none => []
  | some sp => sp.containers.map (fun c =>
      [("name", Value.str c.name),
       ("image", Value.str c.image),
       ("pod_name", Value.str p.metadata.name),
       ("namespace", Value.str p.metadata.nspace),
       ("node_name", optVal sp.node_name)])

theorem podContainerRecords_eq_spec (p : Pod) :
    podContainerRecords p = pod_container_records_spec p := by
  obtain ⟨pmeta, pspec, pstatus⟩ := p
  rcases pspec with _ | ⟨nn, sa, cs⟩
  · rfl
  · rcases cs with _ | ⟨c, cs⟩
    · rfl
    · rfl

/-- C4: `collect_containers` on a successful pod listing returns exactly
the flattening the spec describes: one `ContainerRecord` per declared
container of each pod with a non-empty container spec, carrying the
container's name and image and the owning pod's name, namespace and node
name; pods with no spec or no containers contribute zero records and no
error is raised. -/
theorem collect_containers_flatten
    (env : ClusterEnv) (pods : List Pod)
    (hlist : env.list_pod_for_all_namespaces = .ok pods) :
    collect_containers env = .ok (pods.flatMap pod_container_records_spec) := by
  have h1 : collect_containers env
      = .ok (pods.foldl (fun acc p => acc ++ podContainerRecords p) []) := by
    unfold collect_containers
    rw [hlist]
  rw [h1, foldl_append_flatMap podContainerRecords pods [], List.nil_append,
    funext podContainerRecords_eq_spec]

def pod_web : Pod :=
  { metadata := { name := "web", nspace := "default", uid := "u-web" },
    spec := some { node_name := some "node-a", service_account_name := some "default",
                   containers := [{ name := "c1", image := "img1" },
                                  { name := "c2", image := "img2" }] },
    status := some { phase := some "Running", pod_ip := some "10.0.0.1" } }

def pod_db : Pod :=
  { metadata := { name := "db", nspace := "default", uid := "u-db" },
    spec := some { node_name := some "node-b", service_account_name := some "default",
                   containers := [{ name := "c3", image := "img3" }] },
    status := some { phase := some "Running", pod_ip := some "10.0.0.2" } }

def env_two_pods : ClusterEnv :=
  { list_node := .ok []
    list_pod_for_all_namespaces := .ok [pod_web, pod_db]
    read_namespaced_pod := fun _ _ => .error (.apiException "unused")
    pod_exec := fun _ _ _ => .error (.apiException "unused") }

theorem collect_containers_flatten_witness :
    collect_containers env_two_pods
      = .ok [[("name", .str "c1"), ("image", .str "img1"), ("pod_name", .str "web"),
              ("namespace", .str "default"), ("node_name", .str "node-a")],
             [("name", .str "c2"), ("image", .str "img2"), ("pod_name", .str "web"),
              ("namespace", .str "default"), ("node_name", .str "node-a")],
             [("name", .str "c3"), ("image", .str "img3"), ("pod_name", .str "db"),
              ("namespace", .str "default"), ("node_name", .str "node-b")]] :=
  (collect_containers_flatten env_two_pods [pod_web, pod_db] rfl).trans rfl

/-- The ProcessSnapshot entries one pod contributes, stated as §4.3 of the
spec describes `listAllRunningProcesses`: for a pod whose phase is
`"Running"` and whose spec declares containers, one entry per declared
container holding the result of `listProcesses` for that container
(possibly empty); any other pod contributes nothing. -/
def pod_snapshots_spec (env : ClusterEnv) (p : Pod) : List Record :=
  match p.status, p.spec with
  | some st, some sp =>
      if st.phase = some "Running" then
        sp.containers.map (fun c =>
          processRecord p c
            (collect_processes env p.metadata.name p.metadata.nspace (some c.name)))
      else []
  | _, _ => []

theorem all_processes_step_of_some (env : ClusterEnv) (acc : List Record)
    (p : Pod) (st : PodStatus) (h : p.status = some st) :
    all_processes_step env acc p = .ok (acc ++ pod_snapshots_spec env p) := by
  obtain ⟨pmeta, pspec, pstatus⟩ := p
  have hps : pstatus = some st := h
  subst hps
  unfold all_processes_step pod_snapshots_spec
  rcases pspec with _ | ⟨nn, sa, cs⟩
  · by_cases hph : st.phase = some "Running" <;> simp [hph] <;> rfl
  · rcases cs with _ | ⟨c, cs⟩
    · by_cases hph : st.phase = some "Running" <;> simp [hph] <;> rfl
    · by_cases hph : st.phase = some "Running" <;> simp [hph] <;> rfl

theorem all_processes_foldlM (env : ClusterEnv) :
    ∀ (pods : List Pod) (acc : List Record),
      (∀ p ∈ pods, p.status.isSome) →
      List.foldlM (all_processes_step env) acc pods
        = .ok (acc ++ pods.flatMap (pod_snapshots_spec env)) := by
  intro pods
  induction pods with
  | nil =>
    intro acc _
    simp only [List.foldlM_nil, List.flatMap_nil, List.append_nil]
    rfl
  | cons p t ih =>
    intro acc h
    obtain ⟨st, hps⟩ := Option.isSome_iff_exists.mp (h p (by simp))
    rw [List.foldlM_cons, all_processes_step_of_some env acc p st hps, except_bind_ok,
      ih (acc ++ pod_snapshots_spec env p) (fun q hq => h q (by simp [hq]))]
    simp [List.append_assoc]

/-- C3: `collect_all_processes` on a successful pod listing (of pods whose
`status` sub-object is present, so the unguarded phase test succeeds)
returns exactly one ProcessSnapshot record per declared container of every
pod whose phase is `"Running"` and whose spec declares at least one
container; each entry carries the pod name, namespace, container name and
that container's own `collect_processes` result, so an exec failure in one
container (an empty list) cannot drop or alter any other container's
entry. -/
theorem collect_all_processes_one_snapshot_per_container
    (env : ClusterEnv) (pods : List Pod)
    (hlist : env.list_pod_for_all_namespaces = .ok pods)
    (hstatus : ∀ p ∈ pods, p.status.isSome) :
    collect_all_processes env = .ok (pods.flatMap (pod_snapshots_spec env)) := by
  unfold collect_all_processes collect_all_processes_body
  rw [hlist, except_bind_ok, all_processes_foldlM env pods [] hstatus, List.nil_append]

/-- A running pod with two declared containers. -/
def pod_two_containers : Pod :=
  { metadata := { name := "api", nspace := "prod", uid := "u-api" },
    spec := some { node_name := some "node-a", service_account_name := some "default",
                   containers := [{ name := "app", image := "app:1" },
                                  { name := "sidecar", image := "sc:1" }] },
    status := some { phase := some "Running", pod_ip := some "10.1.1.1" } }

/-- An environment where exec succeeds in container `app` and fails in
container `sidecar`. -/
def env_partial_exec : ClusterEnv :=
  { list_node := .ok []
    list_pod_for_all_namespaces := .ok [pod_two_containers]
    read_namespaced_pod := fun _ _ => .ok pod_two_containers
    pod_exec := fun _ _ c =>
      if c = "app" then .ok "PID USER\n1 root\n"
      else .error (.apiException "exec not supported") }

theorem collect_all_processes_one_snapshot_per_container_witness :
    collect_all_processes env_partial_exec
      = .ok [[("pod_name", .str "api"), ("namespace", .str "prod"),
              ("container_name", .str "app"), ("processes", .vlist ["PID USER", "1 root"])],
             [("pod_name", .str "api"), ("namespace", .str "prod"),
              ("container_name", .str "sidecar"), ("processes", .vlist [])]] := by
  rw [collect_all_processes_one_snapshot_per_container env_partial_exec [pod_two_containers]
    rfl (by decide)]
  exact congrArg Except.ok (by decide)

/-- The files written by `export_csv`, as a filterMap over the record
sets. -/
theorem export_files_eq (data : List (String × List Record)) (output_dir : String) :
    (export_csv data output_dir).files
      = data.filterMap (fun kv =>
          if kv.2.isEmpty then none
          else some (csv_path output_dir kv.1, csvTable kv.2)) := rfl

/-- In a pair list with no duplicate keys, a key determines its value. -/
theorem keys_nodup_mem_unique {β : Type} {l : List (String × β)}
    (h : (l.map Prod.fst).Nodup) {k : String} {v w : β}
    (hv : (k, v) ∈ l) (hw : (k, w) ∈ l) : v = w := by
  induction l with
  | nil => cases hv
  | cons a t ih =>
    simp only [List.map_cons, List.nodup_cons] at h
    rcases List.mem_cons.mp hv with hv1 | hv2
    · subst hv1
      rcases List.mem_cons.mp hw with hw1 | hw2
      · exact (Prod.ext_iff.mp hw1).2.symm
      · exact absurd (List.mem_map.mpr ⟨(k, w), hw2, rfl⟩) h.1
    · rcases List.mem_cons.mp hw with hw1 | hw2
      · subst hw1
        exact absurd (List.mem_map.mpr ⟨(k, v), hv2, rfl⟩) h.1
      · exact ih h.2 hv2 hw2

/-- Distinct category names yield distinct CSV file paths. -/
theorem csv_path_inj {output_dir k1 k2 : String}
    (h : csv_path output_dir k1 = csv_path output_dir k2) : k1 = k2 := by
  unfold csv_path at h
  have hd := congrArg String.data h
  simp only [String.data_append] at hd
  have h1 := List.append_cancel_right hd
  have h2 := List.append_cancel_left h1
  cases k1
  cases k2
  exact congrArg String.mk h2

/-- C9: a category whose record sequence is empty produces no output file
at all (nothing with its file name is written), while every non-empty
category in the same call produces its file, named
`output_dir/key.csv` and holding its CSV table; the destination directory
is created with `exist_ok=True` (idempotently, parents included).  The
category names are the keys of a Python dict and hence distinct. -/
theorem export_csv_skips_empty_categories
    (data : List (String × List Record)) (output_dir : String)
    (hnodup : (data.map Prod.fst).Nodup) :
    (∀ key, (key, ([] : List Record)) ∈ data →
      ∀ tbl, (csv_path output_dir key, tbl) ∉ (export_csv data output_dir).files)
    ∧ (∀ key items, (key, items) ∈ data → items ≠ [] →
      (csv_path output_dir key, csvTable items) ∈ (export_csv data output_dir).files)
    ∧ (export_csv data output_dir).makedirs_dir = output_dir
    ∧ (export_csv data output_dir).makedirs_exist_ok = true := by
  refine ⟨?_, ?_, rfl, rfl⟩
  · intro key hkey tbl hmem
    rw [export_files_eq] at hmem
    rcases List.mem_filterMap.mp hmem with ⟨⟨k2, items2⟩, hmem2, heq⟩
    by_cases he : items2.isEmpty
    · rw [if_pos he] at heq
      cases heq
    · rw [if_neg he] at heq
      have hp := Prod.ext_iff.mp (Option.some.inj heq)
      have hk : k2 = key := csv_path_inj hp.1
      subst hk
      have h0 : items2 = [] := keys_nodup_mem_unique hnodup hmem2 hkey
      subst h0
      exact he rfl
  · intro key items hmem hne
    rw [export_files_eq]
    refine List.mem_filterMap.mpr ⟨(key, items), hmem, ?_⟩
    have he : ¬(items.isEmpty = true) := by
      cases items with
      | nil => exact absurd rfl hne
      | cons a t => simp
    rw [if_neg he]

def record_a : Record := [("name", .str "n1"), ("uid", .str "u1")]

def data_with_empty : List (String × List Record) := [("nodes", []), ("pods", [record_a])]

theorem export_csv_skips_empty_categories_witness :
    (csv_path "output" "pods", csvTable [record_a])
      ∈ (export_csv data_with_empty "output").files
    ∧ (csv_path "output" "nodes", csvTable ([] : List Record))
      ∉ (export_csv data_with_empty "output").files := by
  have h := export_csv_skips_empty_categories data_with_empty "output" (by decide)
  exact ⟨h.2.1 "pods" [record_a] (by decide) (by decide),
    h.1 "nodes" (by decide) (csvTable [])⟩

/-- C5: the file exported for a non-empty record set is headed by exactly
the field names of the first record, in that record's insertion order (no
union over records, no sorting), followed by one row per record — the
first record included — whose cells are the rendered lookups of the header
fields in header order; a list value renders as its elements joined with a
newline, and an absent value (an explicit `None` or a missing field)
renders as the empty cell. -/
theorem export_csv_first_record_header
    (data : List (String × List Record)) (output_dir key : String)
    (first : Record) (rest : List Record)
    (hmem : (key, first :: rest) ∈ data) :
    (csv_path output_dir key,
        (first.map Prod.fst) ::
          (first :: rest).map (fun item =>
            (first.map Prod.fst).map (fun f => render_cell (item.lookup f))))
      ∈ (export_csv data output_dir).files
    ∧ (∀ xs, render_cell (some (Value.vlist xs)) = String.intercalate "\n" xs)
    ∧ render_cell (some Value.vnone) = ""
    ∧ render_cell none = "" := by
  refine ⟨?_, fun xs => rfl, rfl, rfl⟩
  rw [export_files_eq]
  refine List.mem_filterMap.mpr ⟨(key, first :: rest), hmem, ?_⟩
  rw [if_neg (by simp)]
  rfl

def record_ba : Record := [("b", .str "1"), ("a", .str "2")]

def record_ab : Record := [("a", .str "9"), ("b", .str "8")]

def data_header_order : List (String × List Record) := [("things", [record_ba, record_ab])]

theorem export_csv_first_record_header_witness :
    (csv_path "output" "things", [["b", "a"], ["1", "2"], ["8", "9"]])
      ∈ (export_csv data_header_order "output").files := by
  have h := (export_csv_first_record_header data_header_order "output" "things"
    record_ba [record_ab] (by decide)).1
  have he : (record_ba.map Prod.fst) ::
      ([record_ba, record_ab].map (fun item =>
        (record_ba.map Prod.fst).map (fun f => render_cell (item.lookup f))))
      = [["b", "a"], ["1", "2"], ["8", "9"]] := by decide
  rw [← he]
  exact h

/-- C10: the rows written by `export_csv` for records after the first are
driven entirely by the first record's field names: a field present in a
later record but absent from the header is silently ignored (appending it
to the record leaves the row unchanged), a header field absent from the
record is written as an empty cell, and every row has exactly one cell per
header field — no error is possible for heterogeneous record sets. -/
theorem export_rows_heterogeneous_records (first item : Record) :
    (∀ f v, f ∉ first.map Prod.fst →
        csvRow (first.map Prod.fst) (item ++ [(f, v)]) = csvRow (first.map Prod.fst) item)
    ∧ (∀ f, f ∈ first.map Prod.fst → item.lookup f = none →
        "" ∈ csvRow (first.map Prod.fst) item)
    ∧ (csvRow (first.map Prod.fst) item).length = first.length := by
  refine ⟨?_, ?_, by simp [csvRow]⟩
  · intro f v hf
    unfold csvRow
    apply List.map_congr_left
    intro g hg
    have hgf : g ≠ f := fun he => hf (he ▸ hg)
    rw [List.lookup_append]
    have h0 : ([(f, v)] : Record).lookup g = none := by
      have hb : (g == f) = false := beq_eq_false_iff_ne.mpr hgf
      simp [List.lookup, hb]
    rw [h0, Option.or_none]
  · intro f hf hnone
    exact List.mem_map.mpr ⟨f, hf, by rw [hnone]; rfl⟩

def first_rec : Record := [("a", .str "1")]

def extra_rec : Record := [("b", .str "9")]

theorem export_rows_heterogeneous_records_witness :
    csvRow (first_rec.map Prod.fst) (extra_rec ++ [("x", Value.str "z")])
      = csvRow (first_rec.map Prod.fst) extra_rec
    ∧ "" ∈ csvRow (first_rec.map Prod.fst) extra_rec := by
  have h := export_rows_heterogeneous_records first_rec extra_rec
  exact ⟨h.1 "x" (Value.str "z") (by decide), h.2.1 "a" (by decide) (by decide)⟩

end KubeInventory
